import Mathlib

/-!
Shallow embedding of the Clarity Index text analyzer (`src/app.py`).

Strings are lists of characters; Python floats are modelled as exact
rationals (`ℚ`), with `round(x, 2)` modelled as round-half-to-even on the
exact rational value.  Fallible analysis returns `Option Metrics`,
mirroring Python's `None`.  All inputs exercised here are ASCII, so the
ASCII fragments of Python's `\w`, `\s`, `str.lower`, `str.strip` and
`str.isupper` are used.
-/

/-- Python whitespace (the characters recognized by `str.strip` and the
regex class `\s`, ASCII fragment): space, tab, newline, carriage return,
vertical tab, form feed. -/
def pySpace (c : Char) : Bool :=
  c = ' ' || c = '\t' || c = '\n' || c = '\r' || c = '\x0b' || c = '\x0c'

/-- Python `str.strip()`: drop leading and trailing whitespace. -/
def pyStrip (l : List Char) : List Char :=
  ((l.dropWhile pySpace).reverse.dropWhile pySpace).reverse

/-- Python regex word character `\w` (ASCII fragment): letters, digits,
underscore. -/
def isWordChar (c : Char) : Bool := c.isAlphanum || c = '_'

/-- The sentence-ending punctuation class `[.!?]` of `app.py`'s
`sentence_pattern`. -/
def isSentPunct (c : Char) : Bool := c = '.' || c = '!' || c = '?'

/-- Worker for `words_of`: scans the text once, accumulating the current
(reversed) run of word characters in `acc`; a maximal nonempty run is
emitted as one word.  This realizes `re.finditer(r'\b\w+\b', text)`,
whose matches are exactly the maximal runs of word characters. -/
def wordsOfAux : List Char → List Char → List (List Char)
  | [], acc => if acc.isEmpty then [] else [acc.reverse]
  | c :: cs, acc =>
    if isWordChar c then wordsOfAux cs (c :: acc)
    else if acc.isEmpty then wordsOfAux cs []
    else acc.reverse :: wordsOfAux cs []

/-- The word tokenizer of `analyze_text`: all matches of `\b\w+\b`. -/
def words_of (t : List Char) : List (List Char) := wordsOfAux t []

/-- Worker for `sentSplit`, realizing `re.split(r'[.!?]+(?:\s|$)', text)`.
`run` holds the pending (reversed) maximal run of `.!?` characters, `acc`
the current (reversed) fragment.  A maximal punctuation run followed by a
whitespace character (which `\s` consumes) or by the end of the input
(matched by `$`; the input is pre-stripped, so `$` is end-of-string) is a
separator; otherwise the run belongs to the current fragment.  A
separator ending at the end of input leaves a final empty fragment, as
`re.split` does. -/
def sentAux : List Char → List Char → List Char → List (List Char)
  | [], [], acc => [acc.reverse]
  | [], _ :: _, acc => [acc.reverse, []]
  | c :: cs, run, acc =>
    if isSentPunct c then sentAux cs (c :: run) acc
    else if run.isEmpty then sentAux cs [] (c :: acc)
    else if pySpace c then acc.reverse :: sentAux cs [] []
    else sentAux cs [] (c :: (run ++ acc))

/-- `re.split(r'[.!?]+(?:\s|$)', text)`. -/
def sentSplit (t : List Char) : List (List Char) := sentAux t [] []

/-- The sentence list of `analyze_text`:
`[s.strip() for s in re.split(sentence_pattern, text) if s.strip()]`. -/
def sentences_of (t : List Char) : List (List Char) :=
  ((sentSplit t).map pyStrip).filter (fun s => !s.isEmpty)

/-- Scanner state for the paragraph splitter `re.split(r'\n\s*\n', text)`.
`norm`: not inside a candidate separator.  `seen buf`: one `'\n'` was
read, followed by the (reversed) whitespace `buf`, no second `'\n'` yet.
`sep buf`: a full separator has matched and `buf` is the (reversed)
whitespace read after its last `'\n'`; the greedy `\s*` extends the match
to every later `'\n'` of the same whitespace run. -/
inductive ParaState where
  | norm : ParaState
  | seen (buf : List Char) : ParaState
  | sep (buf : List Char) : ParaState

/-- Worker for `paraSplit`. -/
def paraAux : List Char → ParaState → List Char → List (List Char)
  | [], .norm, acc => [acc.reverse]
  | [], .seen buf, acc => [(buf ++ '\n' :: acc).reverse]
  | [], .sep buf, acc => [acc.reverse, buf.reverse]
  | c :: cs, .norm, acc =>
    if c = '\n' then paraAux cs (.seen []) acc
    else paraAux cs .norm (c :: acc)
  | c :: cs, .seen buf, acc =>
    if c = '\n' then paraAux cs (.sep []) acc
    else if pySpace c then paraAux cs (.seen (c :: buf)) acc
    else paraAux cs .norm (c :: (buf ++ '\n' :: acc))
  | c :: cs, .sep buf, acc =>
    if c = '\n' then paraAux cs (.sep []) acc
    else if pySpace c then paraAux cs (.sep (c :: buf)) acc
    else acc.reverse :: paraAux cs .norm (c :: buf)

/-- `re.split(r'\n\s*\n', text)`. -/
def paraSplit (t : List Char) : List (List Char) := paraAux t .norm []

/-- The vowel set `'aeiouy'` of `count_syllables`. -/
def isVowel (c : Char) : Bool :=
  c = 'a' || c = 'e' || c = 'i' || c = 'o' || c = 'u' || c = 'y'

/-- The vowel-group loop of `count_syllables`: walks the word carrying
`prev_was_vowel` and the running `syllable_count`, incrementing on each
transition from non-vowel to vowel. -/
def vowelGroupsAux : List Char → Bool → Nat → Nat
  | [], _, k => k
  | c :: cs, prev, k =>
    vowelGroupsAux cs (isVowel c) (if isVowel c && !prev then k + 1 else k)

/-- `TextAnalyzer.count_syllables`: lowercase and strip, return 1 for
length at most 3, otherwise count vowel groups, subtract one for a final
silent `'e'` when more than one group was found, and floor at 1. -/
def count_syllables (word : List Char) : Nat :=
  let w := pyStrip (word.map Char.toLower)
  if w.length ≤ 3 then 1
  else
    let n := vowelGroupsAux w false 0
    let n := if w.getLast? = some 'e' ∧ 1 < n then n - 1 else n
    max 1 n

/-- `re.sub(r'[^\w]', '', word.lower())`: lowercase, then delete every
non-word character. -/
def clean_word (word : List Char) : List Char :=
  (word.map Char.toLower).filter isWordChar

/-- `self.common_suffixes` (a Python set literal; it is iterated below,
but the iteration order cannot affect the result since the loop's only
effect is an early `return False`). -/
def common_suffixes : List (List Char) :=
  ["ed".toList, "es".toList, "ing".toList, "s".toList, "ly".toList,
   "er".toList, "est".toList, "ion".toList, "tion".toList, "ness".toList]

/-- The suffix loop of `is_complex_word`: true iff some common suffix
ends the cleaned word, the cleaned word is strictly longer than the
suffix, and the word with the suffix removed (`clean_word[:-len(suffix)]`)
has fewer than 3 syllables — in which case the Python loop returns
`False`. -/
def suffix_short_circuit (cw : List Char) : Bool :=
  common_suffixes.any fun suf =>
    suf.isSuffixOf cw && decide (suf.length < cw.length) &&
      decide (count_syllables (cw.take (cw.length - suf.length)) < 3)

/-- `TextAnalyzer.is_complex_word`.  Python's `word[0]` faults on an
empty string; `analyze_text` only ever passes nonempty words, and the
empty case is mapped to `false`. -/
def is_complex_word : List Char → Bool
  | [] => false
  | c :: rest =>
    if c.isUpper && decide (1 < (c :: rest).length) then false
    else
      let cw := clean_word (c :: rest)
      if cw.length < 3 then false
      else
        let syllables := count_syllables cw
        if suffix_short_circuit cw then false
        else decide (3 ≤ syllables)

/-- Round-half-to-even to an integer, the tie-breaking rule of Python's
built-in `round`, on the exact rational value.  `f` is `⌊q⌋` (floor
division of the numerator by the positive denominator) and the
fractional part `q - f` is compared with `1/2` by comparing
`2·(num - f·den)` with `den`. -/
def roundHalfEven (q : ℚ) : ℤ :=
  let f : ℤ := q.num.fdiv (q.den : ℤ)
  let twoRemNum : ℤ := 2 * (q.num - f * (q.den : ℤ))
  if twoRemNum < (q.den : ℤ) then f
  else if (q.den : ℤ) < twoRemNum then f + 1
  else if f % 2 = 0 then f else f + 1

/-- Python `round(x, 2)` on the exact rational value. -/
def pyRound2 (q : ℚ) : ℚ := (roundHalfEven (q * 100) : ℚ) / 100

/-- The metrics dictionary built by `TextAnalyzer.analyze_text`: raw
counts and the derived readability fields, the latter already rounded to
2 decimal places exactly as in the source. -/
structure Metrics where
  words : Nat
  sentences : Nat
  syllables : Nat
  complex_words : Nat
  long_words : Nat
  paragraphs : Nat
  asl : ℚ
  pcw : ℚ
  aspp : ℚ
  clarity_index : ℚ
  gunning_fog : ℚ
  infogineering_index : ℚ
  flesch_reading_ease : ℚ
  flesch_kincaid_grade : ℚ
deriving DecidableEq, Inhabited, Repr

/-- `TextAnalyzer.analyze_text`.  Python's guard
`if not text or not text.strip()` is equivalent to the stripped text
being empty.  The word loop's three accumulators become a sum and two
`countP`s over the word list. -/
def analyze_text (text : List Char) : Option Metrics :=
  if pyStrip text = [] then none
  else
    let t := pyStrip text
    let paragraphs := max 1 ((paraSplit t).filter (fun p => !(pyStrip p).isEmpty)).length
    let sentence_count := (sentences_of t).length
    if sentence_count = 0 then none
    else
      let word_count := (words_of t).length
      if word_count = 0 then none
      else
        let total_syllables := ((words_of t).map count_syllables).sum
        let complex_words := (words_of t).countP is_complex_word
        let long_words := (words_of t).countP (fun w => decide (8 < w.length))
        let asl : ℚ := (word_count : ℚ) / (sentence_count : ℚ)
        let pcw : ℚ := ((complex_words : ℚ) / (word_count : ℚ)) * 100
        let aspp : ℚ := (sentence_count : ℚ) / (paragraphs : ℚ)
        some
          { words := word_count
            sentences := sentence_count
            syllables := total_syllables
            complex_words := complex_words
            long_words := long_words
            paragraphs := paragraphs
            asl := pyRound2 asl
            pcw := pyRound2 pcw
            aspp := pyRound2 aspp
            clarity_index := pyRound2 (asl + 100 * (complex_words : ℚ) / (word_count : ℚ))
            gunning_fog := pyRound2 (0.4 * (asl + 100 * (complex_words : ℚ) / (word_count : ℚ)))
            infogineering_index :=
              pyRound2 ((asl + 100 * (long_words : ℚ) / (word_count : ℚ)
                + 5 * (sentence_count : ℚ) / (paragraphs : ℚ)) / 2)
            flesch_reading_ease :=
              pyRound2 (206.835 - 1.015 * asl - 84.6 * ((total_syllables : ℚ) / (word_count : ℚ)))
            flesch_kincaid_grade :=
              pyRound2 (0.39 * asl + 11.8 * ((total_syllables : ℚ) / (word_count : ℚ)) - 15.59) }

/-- The feedback record returned by `get_ai_feedback`. -/
structure Feedback where
  conclusion : String
  suggestions : List String
  example_rewrite : String
  confidence : String
deriving DecidableEq, Repr

/-- Stand-in for Python's float formatting inside the two f-strings of
`get_ai_feedback`; no property of the system depends on the digits. -/
def ratStr (q : ℚ) : String := toString q.num ++ "/" ++ toString q.den

/-- `general_tips` of `get_ai_feedback`. -/
def general_tips : List String :=
  ["Use active voice for clarity",
   "Choose simple words over complex ones",
   "Start sentences with the main idea"]

/-- The three threshold-triggered suggestions of `get_ai_feedback`, in
source order: the sequential conditional `append`s become a concatenation
of conditional singletons. -/
def triggered_suggestions (metrics : Metrics) : List String :=
  (if 20 < metrics.asl then ["Shorten sentences — ASL=" ++ ratStr metrics.asl] else [])
    ++ (if 15 < metrics.pcw then ["Reduce complex words — PCW=" ++ ratStr metrics.pcw ++ "%"] else [])
    ++ (if 6 < metrics.aspp then ["Break up paragraphs — ASPP=" ++ ratStr metrics.aspp] else [])

/-- The `while len(suggestions) < 3` padding loop of `get_ai_feedback`:
append `general_tips[len(suggestions) % len(general_tips)]` until the
list has 3 entries (`getD` with default `""` models Python's indexing;
the index is always in range). -/
def fillTips (s : List String) : List String :=
  if s.length < 3 then
    fillTips (s ++ [general_tips.getD (s.length % general_tips.length) ""])
  else s
termination_by 3 - s.length
decreasing_by simp [List.length_append]; omega

/-- `get_ai_feedback`.  The `text` argument is received but never read,
exactly as in the source. -/
def get_ai_feedback (text : List Char) (metrics : Metrics) : Feedback :=
  let word_count := metrics.words
  let sentence_count := metrics.sentences
  let confidence :=
    if word_count < 50 ∨ sentence_count < 3 then "low"
    else if word_count ≤ 200 then "medium"
    else "high"
  let clarity_score := metrics.clarity_index
  let conclusion :=
    if clarity_score ≤ 30 then
      "Your text shows good clarity with manageable sentence complexity."
    else if clarity_score ≤ 45 then
      "Moderate clarity — some sentences may benefit from simplification."
    else
      "High complexity detected — consider breaking down complex ideas."
  let suggestions := fillTips (triggered_suggestions metrics)
  let example_rewrite :=
    if 25 < metrics.asl then
      "Consider splitting your longest sentence into two shorter ones."
    else ""
  { conclusion := conclusion
    suggestions := suggestions.take 3
    example_rewrite := example_rewrite
    confidence := confidence }

/-- Specification-side count of maximal contiguous vowel runs: the number
of positions holding a vowel that either open the word or follow a
non-vowel (§4.1: "a transition from non-vowel/start to vowel increments
the count"). -/
def vowel_run_starts (w : List Char) : Nat :=
  (List.range w.length).countP fun i =>
    isVowel (w.getD i ' ') && (decide (i = 0) || !isVowel (w.getD (i - 1) ' '))

/-- Generalization of `vowel_run_starts` to an arbitrary virtual
preceding character class, mirroring the `prev_was_vowel` flag of the
source loop. -/
def runStartsFrom (prev : Bool) (w : List Char) : Nat :=
  (List.range w.length).countP fun i =>
    isVowel (w.getD i ' ') &&
      (if i = 0 then !prev else !isVowel (w.getD (i - 1) ' '))

/-- A small concrete input used to instantiate the universally quantified
theorems below. -/
def demoText : List Char := "Hi. Bye.".toList

/-- The metrics record computed for `demoText`. -/
def demoMetrics : Metrics := (analyze_text demoText).getD default

/-- A metrics record in the medium-confidence band. -/
def mediumMetrics : Metrics := { (default : Metrics) with words := 100, sentences := 5 }

/-- A metrics record whose unrounded average sentence length
`6251/250 = 25.004` exceeds 25 while the stored, rounded `asl` field is
exactly 25. -/
def borderlineMetrics : Metrics :=
  { (default : Metrics) with
      words := 6251, sentences := 250, asl := pyRound2 ((6251 : ℚ) / 250) }

section
-- Batteries marks the `Rat` arithmetic `@[irreducible]`; reset it so that
-- `decide` can evaluate the analyzer on concrete inputs.
attribute [local semireducible] Rat.mul Rat.inv Rat.add Rat.sub Rat.ofScientific

/-- Unfolding `runStartsFrom` along a cons cell: the head position starts
a run iff it is a vowel preceded (virtually) by a non-vowel, and the tail
is counted with the head as its virtual predecessor. -/
theorem runStartsFrom_cons (prev : Bool) (c : Char) (cs : List Char) :
    runStartsFrom prev (c :: cs) =
      (if isVowel c && !prev then 1 else 0) + runStartsFrom (isVowel c) cs := by
  simp only [runStartsFrom, List.length_cons, List.range_succ_eq_map,
    List.countP_cons, List.countP_map]
  have hfun :
      ((fun i => isVowel ((c :: cs).getD i ' ') &&
          (if i = 0 then !prev else !isVowel ((c :: cs).getD (i - 1) ' '))) ∘ Nat.succ)
        = fun i => isVowel (cs.getD i ' ') &&
            (if i = 0 then !(isVowel c) else !isVowel (cs.getD (i - 1) ' ')) := by
    funext i
    cases i with
    | zero => simp [List.getD_cons_succ, List.getD_cons_zero]
    | succ j => simp [List.getD_cons_succ]
  rw [hfun]
  simp [Nat.add_comm]

/-- The `prev_was_vowel` loop of `count_syllables` computes the number of
vowel-run starts. -/
theorem vowelGroupsAux_eq (w : List Char) :
    ∀ (prev : Bool) (k : Nat), vowelGroupsAux w prev k = k + runStartsFrom prev w := by
  induction w with
  | nil => intro prev k; simp [vowelGroupsAux, runStartsFrom]
  | cons c cs ih =>
    intro prev k
    rw [vowelGroupsAux, ih, runStartsFrom_cons]
    by_cases h : isVowel c && !prev <;> simp [h] <;> omega


/-- With no virtual predecessor the generalized count is the
specification's run count. -/
theorem runStartsFrom_false (w : List Char) :
    runStartsFrom false w = vowel_run_starts w := by
  simp only [runStartsFrom, vowel_run_starts]
  congr 1
  funext i
  by_cases h : i = 0 <;> simp [h]

/-- Claim C2: `count_syllables` lowercases and trims its argument,
returns 1 when the result has length at most 3, and otherwise counts the
maximal contiguous vowel runs, subtracts 1 when the word ends in `'e'`
and more than one run was found, and floors the result at 1; in
particular `cat`, `banana` and `code` have 1, 3 and 1 syllables. -/
theorem count_syllables_spec :
    (∀ w : List Char,
      count_syllables w =
        (let wl := pyStrip (w.map Char.toLower)
         if wl.length ≤ 3 then 1
         else
           max 1 (if wl.getLast? = some 'e' ∧ 1 < vowel_run_starts wl
                  then vowel_run_starts wl - 1 else vowel_run_starts wl)))
    ∧ count_syllables "cat".toList = 1
    ∧ count_syllables "banana".toList = 3
    ∧ count_syllables "code".toList = 1 := by
  refine ⟨fun w => ?_, by decide, by decide, by decide⟩
  simp only [count_syllables, vowelGroupsAux_eq, Nat.zero_add, runStartsFrom_false]

/-- Claim C1: `analyze_text` returns `none` exactly when the stripped
input is empty, sentence tokenization finds nothing, or word tokenization
finds nothing; any returned record (which is complete by construction)
has `words`, `sentences` and `paragraphs` at least 1; and the three spec
examples return `none`. -/
theorem analyze_text_none_iff :
    (∀ t : List Char,
        (analyze_text t = none ↔
          pyStrip t = [] ∨ sentences_of (pyStrip t) = [] ∨ words_of (pyStrip t) = []))
    ∧ (∀ (t : List Char) (m : Metrics), analyze_text t = some m →
        1 ≤ m.words ∧ 1 ≤ m.sentences ∧ 1 ≤ m.paragraphs)
    ∧ analyze_text "".toList = none
    ∧ analyze_text "   ".toList = none
    ∧ analyze_text "???".toList = none := by
  refine ⟨fun t => ?_, fun t m h => ?_, by decide, by decide, by decide⟩
  · simp only [analyze_text]
    split_ifs with h1 h2 h3 <;>
      simp_all [List.length_eq_zero]
  · simp only [analyze_text] at h
    split_ifs at h with h1 h2 h3
    have hs : 1 ≤ (sentences_of (pyStrip t)).length := Nat.one_le_iff_ne_zero.mpr h2
    have hw : 1 ≤ (words_of (pyStrip t)).length := Nat.one_le_iff_ne_zero.mpr h3
    injection h with h
    subst h
    exact ⟨hw, hs, le_max_left 1 _⟩

/-- Witness for claim C1's record invariant at a concrete input. -/
theorem analyze_text_none_iff_witness :
    1 ≤ demoMetrics.words ∧ 1 ≤ demoMetrics.sentences ∧ 1 ≤ demoMetrics.paragraphs :=
  analyze_text_none_iff.2.1 demoText demoMetrics (by decide)

/-- Claim C4: a word whose first character is uppercase and whose length
exceeds 1 is never classified complex, and `analyze_text`'s
`complex_words` field counts exactly the tokenized words that
`is_complex_word` accepts, so no such word is ever counted. -/
theorem capitalized_never_complex :
    (∀ (c : Char) (rest : List Char), c.isUpper = true → rest ≠ [] →
        is_complex_word (c :: rest) = false)
    ∧ (∀ (t : List Char) (m : Metrics), analyze_text t = some m →
        m.complex_words = (words_of (pyStrip t)).countP is_complex_word) := by
  constructor
  · intro c rest hc hr
    simp [is_complex_word, hc, hr]
  · intro t m h
    simp only [analyze_text] at h
    split_ifs at h with h1 h2 h3
    injection h with h
    subst h
    rfl

/-- Witness for claim C4 at concrete inputs. -/
theorem capitalized_never_complex_witness :
    is_complex_word ('A' :: "nimal".toList) = false
    ∧ demoMetrics.complex_words = (words_of (pyStrip demoText)).countP is_complex_word :=
  ⟨capitalized_never_complex.1 'A' "nimal".toList (by decide) (by decide),
   capitalized_never_complex.2 demoText demoMetrics (by decide)⟩

/-- Claim C5: `gunning_fog` is 0.4 times the unrounded
`asl + 100·complex_words/words`, recomputed from the raw counts stored in
the record, rounded to two decimals. -/
theorem gunning_fog_from_unrounded :
    ∀ (t : List Char) (m : Metrics), analyze_text t = some m →
      m.gunning_fog =
        pyRound2 (0.4 * ((m.words : ℚ) / (m.sentences : ℚ)
          + 100 * (m.complex_words : ℚ) / (m.words : ℚ))) := by
  intro t m h
  simp only [analyze_text] at h
  split_ifs at h with h1 h2 h3
  injection h with h
  subst h
  rfl

/-- Witness for claim C5 at a concrete input. -/
theorem gunning_fog_from_unrounded_witness :
    demoMetrics.gunning_fog =
      pyRound2 (0.4 * ((demoMetrics.words : ℚ) / (demoMetrics.sentences : ℚ)
        + 100 * (demoMetrics.complex_words : ℚ) / (demoMetrics.words : ℚ))) :=
  gunning_fog_from_unrounded demoText demoMetrics (by decide)

/-- Dropping a prefix never lengthens a list. -/
theorem dropWhile_length_le (p : Char → Bool) (l : List Char) :
    (l.dropWhile p).length ≤ l.length :=
  (List.dropWhile_suffix p).length_le

/-- Stripping never lengthens a list. -/
theorem pyStrip_length_le (l : List Char) : (pyStrip l).length ≤ l.length := by
  simp only [pyStrip, List.length_reverse]
  calc (List.dropWhile pySpace (List.dropWhile pySpace l).reverse).length
      ≤ (List.dropWhile pySpace l).reverse.length := dropWhile_length_le _ _
    _ = (List.dropWhile pySpace l).length := List.length_reverse _
    _ ≤ l.length := dropWhile_length_le _ _

/-- A word of length at most 3 always has one estimated syllable. -/
theorem count_syllables_of_short (w : List Char) (h : w.length ≤ 3) :
    count_syllables w = 1 := by
  have hh : (pyStrip (w.map Char.toLower)).length ≤ 3 :=
    le_trans (pyStrip_length_le _) (by simpa using h)
  simp [count_syllables, hh]

/-- Claim C3 (amended): whenever some common suffix ends the cleaned word,
leaves it strictly longer, and removing it gives fewer than 3 syllables,
`is_complex_word` returns `false`; and when no suffix so qualifies AND the
word is not excluded by the capitalization heuristic (uppercase first
character with length above 1), `is_complex_word` returns `true` iff the
cleaned word has at least 3 syllables. -/
theorem complex_word_suffix_rule :
    ∀ (c : Char) (rest : List Char),
      (suffix_short_circuit (clean_word (c :: rest)) = true →
          is_complex_word (c :: rest) = false)
      ∧ (¬(c.isUpper = true ∧ rest ≠ []) →
          suffix_short_circuit (clean_word (c :: rest)) = false →
          (is_complex_word (c :: rest) = true ↔
            3 ≤ count_syllables (clean_word (c :: rest)))) := by
  intro c rest
  constructor
  · intro hs
    simp only [is_complex_word]
    split_ifs with h1 h2 <;> simp_all
  · intro hcap hs
    simp only [is_complex_word]
    split_ifs with h1 h2 h3
    · exfalso
      rw [Bool.and_eq_true, decide_eq_true_iff] at h1
      refine hcap ⟨h1.1, ?_⟩
      cases rest with
      | nil => exact absurd h1.2 (by simp)
      | cons d ds => exact List.cons_ne_nil d ds
    · have hone : count_syllables (clean_word (c :: rest)) = 1 :=
        count_syllables_of_short _ (by omega)
      simp [hone]
    · simp_all
    · simp

/-- Refutation of claim C3 as stated: for the word `Animal` no common
suffix qualifies and the cleaned word has 3 syllables, yet
`is_complex_word` returns `false`, because the capitalization heuristic
fires first. -/
theorem complex_word_suffix_rule_counterexample :
    suffix_short_circuit (clean_word "Animal".toList) = false
    ∧ 3 ≤ count_syllables (clean_word "Animal".toList)
    ∧ is_complex_word "Animal".toList = false := by decide

/-- Witness for claim C3 at concrete inputs: `stopped` short-circuits on
the suffix `ed`, and lowercase `animal` falls through to the syllable
test. -/
theorem complex_word_suffix_rule_witness :
    is_complex_word ('s' :: "topped".toList) = false
    ∧ (is_complex_word ('a' :: "nimal".toList) = true ↔
        3 ≤ count_syllables (clean_word ('a' :: "nimal".toList))) :=
  ⟨(complex_word_suffix_rule 's' "topped".toList).1 (by decide),
   (complex_word_suffix_rule 'a' "nimal".toList).2 (by decide) (by decide)⟩

/-- Claim C6: the suggestions list always has exactly 3 entries — the
threshold-triggered suggestions in order, padded while shorter than 3
with the general tip indexed by the running length modulo 3 and truncated
to 3, so position `i` holds the `i`-th triggered suggestion when it
exists and the `i`-th general tip otherwise. -/
theorem suggestions_exactly_three :
    ∀ (t : List Char) (m : Metrics),
      (get_ai_feedback t m).suggestions.length = 3
      ∧ (get_ai_feedback t m).suggestions =
          [(triggered_suggestions m).getD 0 (general_tips.getD 0 ""),
           (triggered_suggestions m).getD 1 (general_tips.getD 1 ""),
           (triggered_suggestions m).getD 2 (general_tips.getD 2 "")] := by
  intro t m
  simp only [get_ai_feedback, triggered_suggestions]
  by_cases h1 : 20 < m.asl <;> by_cases h2 : 15 < m.pcw <;> by_cases h3 : 6 < m.aspp <;>
    simp [h1, h2, h3, fillTips, general_tips]

/-- Claim C7: feedback confidence is `low` iff `words < 50` or
`sentences < 3`; otherwise `medium` iff `words ≤ 200`; otherwise
`high`. -/
theorem confidence_thresholds :
    ∀ (t : List Char) (m : Metrics),
      ((get_ai_feedback t m).confidence = "low" ↔ (m.words < 50 ∨ m.sentences < 3))
      ∧ (¬(m.words < 50 ∨ m.sentences < 3) →
          (((get_ai_feedback t m).confidence = "medium" ↔ m.words ≤ 200)
            ∧ (200 < m.words → (get_ai_feedback t m).confidence = "high"))) := by
  intro t m
  simp only [get_ai_feedback]
  by_cases h1 : m.words < 50 ∨ m.sentences < 3
  · simp [h1]
  · by_cases h2 : m.words ≤ 200 <;> simp [h1, h2]

/-- Witness for claim C7 at a concrete metrics record. -/
theorem confidence_thresholds_witness :
    ((get_ai_feedback [] mediumMetrics).confidence = "medium" ↔ mediumMetrics.words ≤ 200)
    ∧ (200 < mediumMetrics.words → (get_ai_feedback [] mediumMetrics).confidence = "high") :=
  (confidence_thresholds [] mediumMetrics).2 (by decide)

/-- Refutation of claim C8 as stated: on the spec's example text the
analyzer finds 6 words, not 8, and an average sentence length of 3, not
4.0. -/
theorem spec_example_counterexample :
    (analyze_text "The cat sat. The dog ran.".toList).map (fun m => m.words) ≠ some 8
    ∧ (analyze_text "The cat sat. The dog ran.".toList).map
        (fun m => (m.words, m.sentences, m.asl)) = some (6, 2, 3) := by decide

/-- Claim C8 (amended): `analyze_text` applied to
`"The cat sat. The dog ran."` returns a record with `words = 6`,
`sentences = 2` and `asl = 3.0`. -/
theorem spec_example_metrics :
    (analyze_text "The cat sat. The dog ran.".toList).map
      (fun m => (m.words, m.sentences, m.asl)) = some (6, 2, 3) := by decide

/-- Claim C9: `get_ai_feedback` is a function of its metrics argument
alone; the text argument never influences any output field. -/
theorem feedback_ignores_text :
    ∀ (t1 t2 : List Char) (m : Metrics), get_ai_feedback t1 m = get_ai_feedback t2 m :=
  fun _ _ _ => rfl

/-- Claim C10: the feedback thresholds are evaluated on the
2-decimal-rounded metric fields — in any record produced by
`analyze_text` the stored `asl`, `pcw`, `aspp` are the rounded ratios,
the example rewrite is non-empty iff the rounded `words/sentences`
exceeds 25, and the three suggestion triggers compare the rounded fields;
moreover the unrounded ratio 25.004 rounds to 25 and so does not trigger
the rewrite. -/
theorem thresholds_on_rounded :
    (∀ (t t' : List Char) (m : Metrics), analyze_text t = some m →
        m.asl = pyRound2 ((m.words : ℚ) / (m.sentences : ℚ))
        ∧ m.pcw = pyRound2 (((m.complex_words : ℚ) / (m.words : ℚ)) * 100)
        ∧ m.aspp = pyRound2 ((m.sentences : ℚ) / (m.paragraphs : ℚ))
        ∧ ((get_ai_feedback t' m).example_rewrite ≠ "" ↔
            25 < pyRound2 ((m.words : ℚ) / (m.sentences : ℚ)))
        ∧ triggered_suggestions m =
            (if 20 < pyRound2 ((m.words : ℚ) / (m.sentences : ℚ)) then
              ["Shorten sentences — ASL=" ++ ratStr m.asl] else [])
            ++ (if 15 < pyRound2 (((m.complex_words : ℚ) / (m.words : ℚ)) * 100) then
              ["Reduce complex words — PCW=" ++ ratStr m.pcw ++ "%"] else [])
            ++ (if 6 < pyRound2 ((m.sentences : ℚ) / (m.paragraphs : ℚ)) then
              ["Break up paragraphs — ASPP=" ++ ratStr m.aspp] else []))
    ∧ (25 : ℚ) < 6251 / 250
    ∧ pyRound2 ((6251 : ℚ) / 250) = 25
    ∧ (get_ai_feedback [] borderlineMetrics).example_rewrite = "" := by
  refine ⟨?_, by decide, by decide, by decide⟩
  intro t t' m h
  simp only [analyze_text] at h
  split_ifs at h with h1 h2 h3
  injection h with h
  subst h
  refine ⟨rfl, rfl, rfl, ?_, rfl⟩
  simp only [get_ai_feedback]
  by_cases hrw : (25 : ℚ) <
      pyRound2 ((((words_of (pyStrip t)).length : ℚ)) / (((sentences_of (pyStrip t)).length : ℚ))) <;>
    simp [hrw]

/-- Witness for claim C10 at a concrete input. -/
theorem thresholds_on_rounded_witness :
    demoMetrics.asl = pyRound2 ((demoMetrics.words : ℚ) / (demoMetrics.sentences : ℚ))
    ∧ demoMetrics.pcw =
        pyRound2 (((demoMetrics.complex_words : ℚ) / (demoMetrics.words : ℚ)) * 100)
    ∧ demoMetrics.aspp = pyRound2 ((demoMetrics.sentences : ℚ) / (demoMetrics.paragraphs : ℚ))
    ∧ ((get_ai_feedback [] demoMetrics).example_rewrite ≠ "" ↔
        25 < pyRound2 ((demoMetrics.words : ℚ) / (demoMetrics.sentences : ℚ)))
    ∧ triggered_suggestions demoMetrics =
        (if 20 < pyRound2 ((demoMetrics.words : ℚ) / (demoMetrics.sentences : ℚ)) then
          ["Shorten sentences — ASL=" ++ ratStr demoMetrics.asl] else [])
        ++ (if 15 < pyRound2 (((demoMetrics.complex_words : ℚ) / (demoMetrics.words : ℚ)) * 100)
            then ["Reduce complex words — PCW=" ++ ratStr demoMetrics.pcw ++ "%"] else [])
        ++ (if 6 < pyRound2 ((demoMetrics.sentences : ℚ) / (demoMetrics.paragraphs : ℚ)) then
          ["Break up paragraphs — ASPP=" ++ ratStr demoMetrics.aspp] else []) :=
  thresholds_on_rounded.1 demoText [] demoMetrics (by decide)

end
